import Mathlib

/-!
Verification of the credit-approval decision engine of the
Backend-Assignment repository (Django app `loans`).

The embedding translates the Python source shallowly into Lean:

* Python `Decimal` and `float` values are modelled as exact rationals (ℚ).
  All arithmetic the claims exercise (sums, products, comparisons, powers
  with integer exponents, division by small constants) is exact in both
  `Decimal` (28 significant digits) and ℚ on the inputs under scrutiny;
  where rounding does occur in the source (`round(emi, 2)`, Python's
  `Decimal` default ROUND_HALF_EVEN), it is modelled explicitly by
  `roundHalfEven2`.
* Django ORM queries are modelled as folds over explicit lists:
  `Customer.objects.get(customer_id=...)` becomes `List.find?` on a
  database snapshot, `customer.loans.filter(end_date__gte=today)` becomes
  a `List.filter` on the customer's loans.
* Dates carry a year and an ordinal day within the year, ordered
  lexicographically; `date.today()` / `datetime.now().year` become an
  explicit `today : Date` parameter.
-/

/-- A calendar date: year and ordinal day within the year, compared
lexicographically (faithful to the total order on real dates). -/
structure Date where
  year : Int
  ordinal : Int
deriving DecidableEq, Repr

/-- `dateLe a b` models the Python comparison `a <= b` on `datetime.date`. -/
def dateLe (a b : Date) : Bool :=
  decide (a.year < b.year ∨ (a.year = b.year ∧ a.ordinal ≤ b.ordinal))

/-- Row of the `customers` table (`loans/models.py`, class `Customer`).
Only the fields the decision engine reads are modelled. -/
structure Customer where
  customer_id : Nat
  monthly_salary : ℚ
  approved_limit : ℚ
  current_debt : ℚ
deriving DecidableEq, Repr

/-- Row of the `loans` table (`loans/models.py`, class `Loan`).
`tenure` and `emis_paid_on_time` are `PositiveIntegerField`s in the model;
they are embedded as `Int` so that claims about records violating the
declared invariants remain statable. -/
structure Loan where
  customer_id : Nat
  loan_amount : ℚ
  tenure : Int
  interest_rate : ℚ
  monthly_repayment : ℚ
  emis_paid_on_time : Int
  start_date : Date
  end_date : Date
deriving DecidableEq, Repr

/-- A read-only snapshot of the database: the two tables the engine queries. -/
structure Db where
  customers : List Customer
  loans : List Loan
deriving Repr

/-- `Customer.objects.get(customer_id=customer_id)`: the first customer row
with the given id, or `none` (`Customer.DoesNotExist`). -/
def findCustomer (db : Db) (customer_id : Nat) : Option Customer :=
  db.customers.find? (fun c => c.customer_id == customer_id)

/-- `customer.loans.all()`: every loan row referencing the customer. -/
def loansOf (db : Db) (customer_id : Nat) : List Loan :=
  db.loans.filter (fun l => l.customer_id == customer_id)

/-- `customer.loans.filter(end_date__gte=date.today())`: the customer's
currently active loans. -/
def activeLoansOf (db : Db) (customer_id : Nat) (today : Date) : List Loan :=
  (loansOf db customer_id).filter (fun l => dateLe today l.end_date)

/-- Sum of `loan_amount` over the customer's active loans
(`current_loans_sum` in `calculate_credit_score`). -/
def currentLoansSum (db : Db) (customer_id : Nat) (today : Date) : ℚ :=
  ((activeLoansOf db customer_id today).map Loan.loan_amount).sum

/-- Sum of `monthly_repayment` over the customer's active loans
(`current_emis` in `check_loan_eligibility`). -/
def currentEmis (db : Db) (customer_id : Nat) (today : Date) : ℚ :=
  ((activeLoansOf db customer_id today).map Loan.monthly_repayment).sum

/-- `calculate_credit_score` (`loans/utils.py`, lines 7–66), translated
clause by clause.  The Python function returns a bare number in every
case, including `return 0` on `Customer.DoesNotExist`. -/
def calculate_credit_score (db : Db) (today : Date) (customer_id : Nat) : ℚ :=
  match findCustomer db customer_id with
  | none => 0
  | some customer =>
    if currentLoansSum db customer_id today > customer.approved_limit then 0
    else
      let loans := loansOf db customer_id
      if loans.isEmpty then 50
      else
        let total_emis : Int := (loans.map Loan.tenure).sum
        let emis_paid_on_time : Int := (loans.map Loan.emis_paid_on_time).sum
        let score1 : ℚ :=
          if total_emis > 0 then
            min 35 (((emis_paid_on_time : ℚ) / (total_emis : ℚ)) * 35)
          else 0
        let num_loans := loans.length
        let score2 : ℚ := score1 +
          (if num_loans ≤ 2 then 15 else if num_loans ≤ 5 then 10
           else if num_loans ≤ 10 then 5 else 0)
        let current_year_loans :=
          loans.filter (fun l => l.start_date.year == today.year)
        let score3 : ℚ := score2 +
          (if current_year_loans.length ≤ 2 then 15
           else if current_year_loans.length ≤ 4 then 10
           else if current_year_loans.length ≤ 6 then 5 else 0)
        let total_loan_volume : ℚ := (loans.map Loan.loan_amount).sum
        let score4 : ℚ :=
          if customer.approved_limit > 0 then
            score3 + max 0 (35 - min 1 (total_loan_volume / customer.approved_limit) * 35)
          else score3
        min 100 (max 0 score4)

/-- ROUND_HALF_EVEN at integer precision: Python's rounding of a `Decimal`
to the nearest integer, ties to the even neighbour. -/
def roundHalfEven (q : ℚ) : Int :=
  let f := ⌊q⌋
  let frac := q - (f : ℚ)
  if frac < 1/2 then f
  else if frac > 1/2 then f + 1
  else if f % 2 = 0 then f else f + 1

/-- `round(x, 2)` on a Python `Decimal`: half-even rounding to 2 fractional
digits. -/
def roundHalfEven2 (q : ℚ) : ℚ :=
  (roundHalfEven (q * 100) : ℚ) / 100

/-- `calculate_monthly_installment` (`loans/utils.py`, lines 69–91).
Note the two fallback paths return the raw quotient `principal / tenure`
with no rounding; only the compound-interest path rounds. -/
def calculate_monthly_installment (principal annual_interest_rate : ℚ)
    (tenure_months : Nat) : ℚ :=
  if annual_interest_rate = 0 then principal / (tenure_months : ℚ)
  else
    let monthly_rate := annual_interest_rate / 1200
    let numerator := principal * monthly_rate * (1 + monthly_rate) ^ tenure_months
    let denominator := (1 + monthly_rate) ^ tenure_months - 1
    if denominator = 0 then principal / (tenure_months : ℚ)
    else roundHalfEven2 (numerator / denominator)

/-- `get_corrected_interest_rate` (`loans/utils.py`, lines 94–105). -/
def get_corrected_interest_rate (credit_score requested_rate : ℚ) : ℚ :=
  if credit_score > 50 then max requested_rate 8
  else if credit_score > 30 then max requested_rate 12
  else if credit_score > 10 then max requested_rate 16
  else requested_rate

/-- `check_loan_eligibility` (`loans/utils.py`, lines 108–137).
Returns the tuple `(approved, corrected_interest_rate, monthly_installment,
message)` of the source. -/
def check_loan_eligibility (db : Db) (today : Date) (customer_id : Nat)
    (loan_amount interest_rate : ℚ) (tenure : Nat) :
    Bool × ℚ × ℚ × String :=
  match findCustomer db customer_id with
  | none => (false, interest_rate, 0, "Customer not found")
  | some customer =>
    let credit_score := calculate_credit_score db today customer_id
    let corrected_rate := get_corrected_interest_rate credit_score interest_rate
    let monthly_installment :=
      calculate_monthly_installment loan_amount corrected_rate tenure
    if credit_score ≤ 10 then
      (false, corrected_rate, monthly_installment, "Credit score too low")
    else
      let total_emis := currentEmis db customer_id today + monthly_installment
      if total_emis > customer.monthly_salary * (1/2) then
        (false, corrected_rate, monthly_installment,
          "EMIs exceed 50% of monthly salary")
      else if loan_amount > customer.approved_limit then
        (false, corrected_rate, monthly_installment,
          "Loan amount exceeds approved limit")
      else (true, corrected_rate, monthly_installment, "Loan approved")

/-- `CustomerRegistrationSerializer.create` (`loans/serializers.py`,
lines 21–37): the approved limit assigned at registration,
`math.ceil(36 * monthly_income / 100000) * 100000`. -/
def approvedLimitOf (monthly_income : ℚ) : ℚ :=
  ((⌈36 * monthly_income / 100000⌉ : Int) : ℚ) * 100000

/-- `Loan.repayments_left` (`loans/models.py`, lines 46–49):
`max(0, self.tenure - self.emis_paid_on_time)`. -/
def repayments_left (tenure emis_paid_on_time : Int) : Int :=
  max 0 (tenure - emis_paid_on_time)

/-! ## Concrete database fixtures used by witnesses and counterexamples -/

/-- An empty snapshot: no customers, no loans. -/
def dbMissing : Db := ⟨[], []⟩

/-- A reference date used by concrete evaluations. -/
def today0 : Date := ⟨2026, 285⟩

/-- A customer whose active-loan principal sum exceeds the approved limit. -/
def overCustomer : Customer := ⟨1, 50000, 100000, 0⟩

/-- An active loan (ends after `today0`) of 200000 for `overCustomer`. -/
def overLoan : Loan := ⟨1, 200000, 12, 10, 1000, 0, ⟨2026, 1⟩, ⟨2027, 1⟩⟩

/-- Snapshot containing the overexposed customer and their active loan. -/
def dbOver : Db := ⟨[overCustomer], [overLoan]⟩

/-- A customer with no loan records at all. -/
def cleanCustomer : Customer := ⟨2, 50000, 1800000, 0⟩

/-- Snapshot containing only the loan-free customer. -/
def dbClean : Db := ⟨[cleanCustomer], []⟩

/-! ## Claims -/

/-- C10: for every loan record, `repayments_left` is non-negative, equals
`tenure - emis_paid_on_time` when the invariant `emis_paid_on_time ≤ tenure`
holds, and clamps to 0 even for a record violating that invariant. -/
theorem repayments_left_spec (tenure emis : Int) :
    0 ≤ repayments_left tenure emis ∧
    (emis ≤ tenure → repayments_left tenure emis = tenure - emis) ∧
    (tenure ≤ emis → repayments_left tenure emis = 0) := by
  unfold repayments_left
  refine ⟨le_max_left _ _, fun h => max_eq_right (by omega), fun h => max_eq_left (by omega)⟩

/-- Witness for C10 at a record violating the invariant (20 EMIs paid on a
12-month tenure): the property still clamps to 0. -/
theorem repayments_left_spec_witness :
    0 ≤ repayments_left 12 20 ∧ repayments_left 12 20 = 0 :=
  ⟨(repayments_left_spec 12 20).1, (repayments_left_spec 12 20).2.2 (by norm_num)⟩

/-- C9: the approved limit assigned at registration is the least multiple of
100000 that is at least 36 × monthly income, i.e. 36 × income rounded UP to
the nearest 100000. -/
theorem approved_limit_spec (income : ℚ) (h : 0 ≤ income) :
    (∃ k : Int, approvedLimitOf income = (k : ℚ) * 100000) ∧
    36 * income ≤ approvedLimitOf income ∧
    ∀ k : Int, 36 * income ≤ (k : ℚ) * 100000 →
      approvedLimitOf income ≤ (k : ℚ) * 100000 := by
  unfold approvedLimitOf
  refine ⟨⟨⌈36 * income / 100000⌉, rfl⟩, ?_, ?_⟩
  · have h1 : 36 * income / 100000 ≤ ((⌈36 * income / 100000⌉ : Int) : ℚ) :=
      Int.le_ceil _
    calc 36 * income = 36 * income / 100000 * 100000 := by ring
    _ ≤ ((⌈36 * income / 100000⌉ : Int) : ℚ) * 100000 := by
        exact mul_le_mul_of_nonneg_right h1 (by norm_num)
  · intro k hk
    have h2 : 36 * income / 100000 ≤ (k : ℚ) := by
      rw [div_le_iff₀ (by norm_num : (0:ℚ) < 100000)]
      exact hk
    have h3 : ⌈36 * income / 100000⌉ ≤ k := Int.ceil_le.2 h2
    have h4 : ((⌈36 * income / 100000⌉ : Int) : ℚ) ≤ (k : ℚ) := by exact_mod_cast h3
    exact mul_le_mul_of_nonneg_right h4 (by norm_num)

/-- Witness for C9 at income 50000: the limit covers 36 × income
(and indeed evaluates to 1800000). -/
theorem approved_limit_spec_witness :
    36 * (50000 : ℚ) ≤ approvedLimitOf 50000 ∧ approvedLimitOf 50000 = 1800000 :=
  ⟨(approved_limit_spec 50000 (by norm_num)).2.1, by
    unfold approvedLimitOf
    have h18 : (36 * 50000 / 100000 : ℚ) = ((18 : Int) : ℚ) := by norm_num
    rw [h18, Int.ceil_intCast]
    norm_num⟩

/-- C5: the corrected rate is never below the requested rate, and equals
`max r 8` for score > 50, `max r 12` for 30 < score ≤ 50, `max r 16` for
10 < score ≤ 30, and exactly `r` for score ≤ 10. -/
theorem get_corrected_interest_rate_spec (s r : ℚ) :
    r ≤ get_corrected_interest_rate s r ∧
    (50 < s → get_corrected_interest_rate s r = max r 8) ∧
    (30 < s ∧ s ≤ 50 → get_corrected_interest_rate s r = max r 12) ∧
    (10 < s ∧ s ≤ 30 → get_corrected_interest_rate s r = max r 16) ∧
    (s ≤ 10 → get_corrected_interest_rate s r = r) := by
  unfold get_corrected_interest_rate
  split_ifs with h1 h2 h3
  · exact ⟨le_max_left _ _, fun _ => rfl,
      fun hc => absurd h1 (not_lt.2 hc.2),
      fun hc => absurd h1 (not_lt.2 (hc.2.trans (by norm_num))),
      fun hc => absurd h1 (not_lt.2 (hc.trans (by norm_num)))⟩
  · exact ⟨le_max_left _ _, fun hc => absurd hc h1, fun _ => rfl,
      fun hc => absurd h2 (not_lt.2 hc.2),
      fun hc => absurd h2 (not_lt.2 (hc.trans (by norm_num)))⟩
  · exact ⟨le_max_left _ _, fun hc => absurd hc h1,
      fun hc => absurd hc.1 h2, fun _ => rfl,
      fun hc => absurd h3 (not_lt.2 hc)⟩
  · exact ⟨le_refl r, fun hc => absurd hc h1,
      fun hc => absurd hc.1 h2, fun hc => absurd hc.1 h3, fun _ => rfl⟩

/-- Witness for C5 at score 40, requested rate 10: the floor property and the
middle band (corrected rate is `max 10 12 = 12`). -/
theorem get_corrected_interest_rate_spec_witness :
    (10 : ℚ) ≤ get_corrected_interest_rate 40 10 ∧
    get_corrected_interest_rate 40 10 = max 10 12 :=
  ⟨(get_corrected_interest_rate_spec 40 10).1,
    (get_corrected_interest_rate_spec 40 10).2.2.1 ⟨by norm_num, by norm_num⟩⟩

/-- C8: at a zero annual rate the installment is the exact straight-line
quotient `P / T`. -/
theorem installment_zero_rate (P : ℚ) (T : Nat) (hP : 0 ≤ P) (hT : 1 ≤ T) :
    calculate_monthly_installment P 0 T = P / (T : ℚ) := by
  unfold calculate_monthly_installment
  rw [if_pos rfl]

/-- Witness for C8 at P = 100, T = 3. -/
theorem installment_zero_rate_witness :
    (0 : ℚ) ≤ 100 ∧ calculate_monthly_installment 100 0 3 = 100 / 3 :=
  ⟨by norm_num, installment_zero_rate 100 3 (by norm_num) (by norm_num)⟩

/-- C3 counterexample: at zero rate the source returns the raw quotient
`100 / 3`, which is not a quantity with 2 fractional digits (no integer `k`
satisfies `100 / 3 = k / 100`), so the result is NOT rounded on that path. -/
theorem installment_rounding_cex :
    calculate_monthly_installment 100 0 3 = 100 / 3 ∧
    ¬ ∃ k : Int, calculate_monthly_installment 100 0 3 = (k : ℚ) / 100 := by
  have h0 : calculate_monthly_installment 100 0 3 = 100 / 3 := by
    unfold calculate_monthly_installment
    rw [if_pos rfl]
    norm_num
  refine ⟨h0, ?_⟩
  rintro ⟨k, hk⟩
  rw [h0] at hk
  have h1 : (10000 : ℚ) = 3 * (k : ℚ) := by
    field_simp at hk
    linarith
  have h2 : (10000 : Int) = 3 * k := by exact_mod_cast h1
  omega

/-- C3 (amended): on the compound-interest path (positive rate, tenure ≥ 1,
where the denominator is provably nonzero) the result is the exact quotient
rounded half-even to 2 fractional digits, hence an integer multiple of 1/100. -/
theorem installment_pos_rate_rounded (P r : ℚ) (T : Nat) (hr : 0 < r) (hT : 1 ≤ T) :
    calculate_monthly_installment P r T =
      roundHalfEven2 (P * (r / 1200) * (1 + r / 1200) ^ T /
        ((1 + r / 1200) ^ T - 1)) ∧
    ∃ k : Int, calculate_monthly_installment P r T = (k : ℚ) / 100 := by
  have hm : (0 : ℚ) < r / 1200 := by positivity
  have hpow : 1 < (1 + r / 1200) ^ T := one_lt_pow₀ (by linarith) (by omega)
  have hden : (1 + r / 1200) ^ T - 1 ≠ 0 := ne_of_gt (by linarith)
  have heq : calculate_monthly_installment P r T =
      roundHalfEven2 (P * (r / 1200) * (1 + r / 1200) ^ T /
        ((1 + r / 1200) ^ T - 1)) := by
    unfold calculate_monthly_installment
    rw [if_neg (ne_of_gt hr)]
    dsimp only
    rw [if_neg hden]
  exact ⟨heq,
    ⟨roundHalfEven (P * (r / 1200) * (1 + r / 1200) ^ T /
        ((1 + r / 1200) ^ T - 1) * 100),
      by rw [heq]; rfl⟩⟩

/-- Witness for the amended C3 at P = 100000, r = 12, T = 1. -/
theorem installment_pos_rate_rounded_witness :
    (0 : ℚ) < 12 ∧
    calculate_monthly_installment 100000 12 1 =
      roundHalfEven2 (100000 * ((12 : ℚ) / 1200) * (1 + (12 : ℚ) / 1200) ^ 1 /
        ((1 + (12 : ℚ) / 1200) ^ 1 - 1)) :=
  ⟨by norm_num, (installment_pos_rate_rounded 100000 12 1 (by norm_num) (by norm_num)).1⟩

/-- The overexposed fixture customer is found under id 1. -/
lemma dbOver_findCustomer : findCustomer dbOver 1 = some overCustomer := rfl

/-- Active-loan principal sum of the fixture customer: the single active
loan of 200000. -/
lemma dbOver_currentLoansSum : currentLoansSum dbOver 1 today0 = 200000 := by
  simp [currentLoansSum, activeLoansOf, loansOf, dbOver, overLoan, dateLe, today0]

/-- The fixture customer is overexposed: 100000 < 200000. -/
lemma dbOver_overexposure :
    overCustomer.approved_limit < currentLoansSum dbOver 1 today0 := by
  rw [dbOver_currentLoansSum]
  norm_num [overCustomer]

/-- Overexposure hard gate of `calculate_credit_score`: an existing customer
whose active-loan sum exceeds the approved limit scores 0. -/
lemma score_zero_of_over (db : Db) (today : Date) (cid : Nat)
    (c : Customer) (h : findCustomer db cid = some c)
    (hover : c.approved_limit < currentLoansSum db cid today) :
    calculate_credit_score db today cid = 0 := by
  simp only [calculate_credit_score, h]
  rw [if_pos hover]

/-- Score of the overexposed fixture customer. -/
lemma dbOver_score : calculate_credit_score dbOver today0 1 = 0 :=
  score_zero_of_over dbOver today0 1 overCustomer dbOver_findCustomer dbOver_overexposure

/-- C1 counterexample: `calculate_credit_score` folds the missing-customer
case into the numeric score 0 — on an empty database it returns 0 for the
absent customer 1, the very same value it returns for an existing,
overexposed customer, so no caller-visible not-found signal distinct from a
score exists. -/
theorem credit_score_not_found_cex :
    findCustomer dbMissing 1 = none ∧
    calculate_credit_score dbMissing today0 1 = 0 ∧
    findCustomer dbOver 1 = some overCustomer ∧
    calculate_credit_score dbOver today0 1 = 0 :=
  ⟨rfl, rfl, rfl, dbOver_score⟩

/-- C1 (amended): for a missing customer, `calculate_credit_score` returns
the plain score 0; the distinct "Customer not found" outcome is produced one
level up, by `check_loan_eligibility`. -/
theorem credit_score_not_found (db : Db) (today : Date) (cid : Nat)
    (h : findCustomer db cid = none) :
    calculate_credit_score db today cid = 0 ∧
    ∀ (amt rate : ℚ) (tenure : Nat),
      check_loan_eligibility db today cid amt rate tenure =
        (false, rate, 0, "Customer not found") := by
  constructor
  · unfold calculate_credit_score
    rw [h]
  · intro amt rate tenure
    unfold check_loan_eligibility
    rw [h]

/-- Witness for the amended C1 on the empty database. -/
theorem credit_score_not_found_witness :
    calculate_credit_score dbMissing today0 1 = 0 ∧
    check_loan_eligibility dbMissing today0 1 100 10 12 =
      (false, 10, 0, "Customer not found") :=
  ⟨(credit_score_not_found dbMissing today0 1 rfl).1,
   (credit_score_not_found dbMissing today0 1 rfl).2 100 10 12⟩

/-- C4: an existing customer whose active-loan principal sum exceeds the
approved limit scores exactly 0, with no further scoring applied. -/
theorem credit_score_overexposed (db : Db) (today : Date) (cid : Nat)
    (c : Customer) (h : findCustomer db cid = some c)
    (hover : c.approved_limit < currentLoansSum db cid today) :
    calculate_credit_score db today cid = 0 :=
  score_zero_of_over db today cid c h hover

/-- Witness for C4: the concrete overexposed customer of `dbOver`. -/
theorem credit_score_overexposed_witness :
    overCustomer.approved_limit < currentLoansSum dbOver 1 today0 ∧
    calculate_credit_score dbOver today0 1 = 0 :=
  ⟨dbOver_overexposure,
   credit_score_overexposed dbOver today0 1 overCustomer rfl dbOver_overexposure⟩

/-- C7: an existing customer (with the model-guaranteed non-negative
approved limit) who has no loan records at all scores the flat default 50. -/
theorem credit_score_no_history (db : Db) (today : Date) (cid : Nat)
    (c : Customer) (h : findCustomer db cid = some c)
    (hl : loansOf db cid = []) (hal : 0 ≤ c.approved_limit) :
    calculate_credit_score db today cid = 50 := by
  have hsum : currentLoansSum db cid today = 0 := by
    unfold currentLoansSum activeLoansOf
    rw [hl]
    rfl
  simp only [calculate_credit_score, h]
  rw [hsum, if_neg (not_lt.2 hal), hl]
  simp

/-- Witness for C7: the loan-free customer of `dbClean`. -/
theorem credit_score_no_history_witness :
    (0 : ℚ) ≤ cleanCustomer.approved_limit ∧
    calculate_credit_score dbClean today0 2 = 50 :=
  ⟨by norm_num [cleanCustomer],
   credit_score_no_history dbClean today0 2 cleanCustomer rfl rfl
     (by norm_num [cleanCustomer])⟩

/-- C6: for every existing customer the score lies in [0, 100]. -/
theorem credit_score_bounds (db : Db) (today : Date) (cid : Nat)
    (c : Customer) (h : findCustomer db cid = some c) :
    0 ≤ calculate_credit_score db today cid ∧
    calculate_credit_score db today cid ≤ 100 := by
  simp only [calculate_credit_score, h]
  by_cases h1 : c.approved_limit < currentLoansSum db cid today
  · rw [if_pos h1]
    norm_num
  · rw [if_neg h1]
    by_cases h2 : (loansOf db cid).isEmpty = true
    · rw [if_pos h2]
      norm_num
    · rw [if_neg h2]
      exact ⟨le_min (by norm_num) (le_max_left _ _), min_le_left _ _⟩

/-- Witness for C6 at the concrete customer of `dbOver`. -/
theorem credit_score_bounds_witness :
    0 ≤ calculate_credit_score dbOver today0 1 ∧
    calculate_credit_score dbOver today0 1 ≤ 100 :=
  credit_score_bounds dbOver today0 1 overCustomer rfl

/-- The corrected rate computed inside `check_loan_eligibility`
(`loans/utils.py`, line 119). -/
def correctedRateFor (db : Db) (today : Date) (cid : Nat) (rate : ℚ) : ℚ :=
  get_corrected_interest_rate (calculate_credit_score db today cid) rate

/-- The installment computed inside `check_loan_eligibility`
(`loans/utils.py`, line 120): requested amount at the corrected rate. -/
def installmentFor (db : Db) (today : Date) (cid : Nat)
    (amt rate : ℚ) (tenure : Nat) : ℚ :=
  calculate_monthly_installment amt (correctedRateFor db today cid rate) tenure

/-- C2: `check_loan_eligibility` applies its checks sequentially and
short-circuits at the first failure, in the fixed order: absent customer,
low score, EMI burden, amount over limit, approval; and its message always
comes from the fixed five-string set, with business rejections drawn only
from the three-string set. -/
theorem check_loan_eligibility_spec (db : Db) (today : Date) (cid : Nat)
    (amt rate : ℚ) (tenure : Nat) :
    (findCustomer db cid = none →
      check_loan_eligibility db today cid amt rate tenure =
        (false, rate, 0, "Customer not found")) ∧
    (∀ c : Customer, findCustomer db cid = some c →
      (calculate_credit_score db today cid ≤ 10 →
        check_loan_eligibility db today cid amt rate tenure =
          (false, correctedRateFor db today cid rate,
           installmentFor db today cid amt rate tenure, "Credit score too low")) ∧
      (¬ calculate_credit_score db today cid ≤ 10 →
        currentEmis db cid today + installmentFor db today cid amt rate tenure >
            c.monthly_salary * (1/2) →
        check_loan_eligibility db today cid amt rate tenure =
          (false, correctedRateFor db today cid rate,
           installmentFor db today cid amt rate tenure,
           "EMIs exceed 50% of monthly salary")) ∧
      (¬ calculate_credit_score db today cid ≤ 10 →
        ¬ currentEmis db cid today + installmentFor db today cid amt rate tenure >
            c.monthly_salary * (1/2) →
        amt > c.approved_limit →
        check_loan_eligibility db today cid amt rate tenure =
          (false, correctedRateFor db today cid rate,
           installmentFor db today cid amt rate tenure,
           "Loan amount exceeds approved limit")) ∧
      (¬ calculate_credit_score db today cid ≤ 10 →
        ¬ currentEmis db cid today + installmentFor db today cid amt rate tenure >
            c.monthly_salary * (1/2) →
        ¬ amt > c.approved_limit →
        check_loan_eligibility db today cid amt rate tenure =
          (true, correctedRateFor db today cid rate,
           installmentFor db today cid amt rate tenure, "Loan approved"))) ∧
    (check_loan_eligibility db today cid amt rate tenure).2.2.2 ∈
      ["Customer not found", "Credit score too low",
       "EMIs exceed 50% of monthly salary", "Loan amount exceeds approved limit",
       "Loan approved"] ∧
    (findCustomer db cid ≠ none ∧
        (check_loan_eligibility db today cid amt rate tenure).1 = false →
      (check_loan_eligibility db today cid amt rate tenure).2.2.2 ∈
        ["Credit score too low", "EMIs exceed 50% of monthly salary",
         "Loan amount exceeds approved limit"]) := by
  refine ⟨?_, ?_, ?_, ?_⟩
  · intro h
    unfold check_loan_eligibility
    rw [h]
  · intro c hc
    refine ⟨?_, ?_, ?_, ?_⟩
    · intro h1
      simp only [check_loan_eligibility, hc, correctedRateFor, installmentFor]
      rw [if_pos h1]
    · intro h1 h2
      simp only [correctedRateFor, installmentFor] at h2
      simp only [check_loan_eligibility, hc, correctedRateFor, installmentFor]
      rw [if_neg h1, if_pos h2]
    · intro h1 h2 h3
      simp only [correctedRateFor, installmentFor] at h2
      simp only [check_loan_eligibility, hc, correctedRateFor, installmentFor]
      rw [if_neg h1, if_neg h2, if_pos h3]
    · intro h1 h2 h3
      simp only [correctedRateFor, installmentFor] at h2
      simp only [check_loan_eligibility, hc, correctedRateFor, installmentFor]
      rw [if_neg h1, if_neg h2, if_neg h3]
  · rcases hf : findCustomer db cid with _ | c
    · simp only [check_loan_eligibility, hf]
      simp
    · simp only [check_loan_eligibility, hf]
      split_ifs <;> simp
  · rintro ⟨hne, happ⟩
    rcases hf : findCustomer db cid with _ | c
    · exact absurd hf hne
    · simp only [check_loan_eligibility, hf] at happ ⊢
      split_ifs at happ ⊢ <;> simp_all

/-- Witness for C2: on the empty database the first check fires and the
"Customer not found" tuple is returned. -/
theorem check_loan_eligibility_spec_witness :
    check_loan_eligibility dbMissing today0 1 100 10 12 =
      (false, 10, 0, "Customer not found") :=
  (check_loan_eligibility_spec dbMissing today0 1 100 10 12).1 rfl
